import Mathlib

/-!
Shallow embedding of `src/cursortracker.py`, a Blender add-on that records
the history of the 3D cursor position of a scene.

Host floats (`FloatVectorProperty`) are modelled as exact rationals; the
host collection type (`CollectionProperty`) as a Lean `List`; the host's
`datetime.now().strftime(...)` result is passed in as an explicit `String`
argument.  Operators always reach `return FINISHED`, which is modelled by
returning `OpStatus.FINISHED` together with the new state.
-/

namespace CursorTracker

/-- A 3-component vector, standing for the host's float vector values. -/
structure Vec3 where
  x : ℚ
  y : ℚ
  z : ℚ
deriving DecidableEq, Repr

/-- `CursorHistoryEntry` property group: `location` and `timestamp`. -/
structure CursorHistoryEntry where
  location : Vec3
  timestamp : String
deriving DecidableEq, Repr

/-- `CursorHistoryProperties` property group: the per-scene History Store.
Defaults: empty collection, `active_index = 0`, `is_recording = False`,
`last_cursor_pos = (0,0,0)`. -/
structure CursorHistoryProperties where
  history_list : List CursorHistoryEntry
  active_index : Int
  is_recording : Bool
  last_cursor_pos : Vec3
deriving DecidableEq, Repr

/-- The default (freshly created) `CursorHistoryProperties` state. -/
def initialProps : CursorHistoryProperties :=
  { history_list := [], active_index := 0, is_recording := false
    last_cursor_pos := ⟨0, 0, 0⟩ }

/-- `max_entries = 100` from `add_cursor_history_entry`. -/
def max_entries : Nat := 100

/-- Build a `CursorHistoryEntry` from a location and a timestamp. -/
def mkEntry (location : Vec3) (ts : String) : CursorHistoryEntry :=
  { location := location, timestamp := ts }

/-- Core of `add_cursor_history_entry`, acting on one scene's
`cursor_history_props`: append the new entry, drop index 0 when the length
exceeds `max_entries`, then set `active_index` to the new last index.
The operation is total: it has no failure path. -/
def addEntryProps (location : Vec3) (ts : String)
    (props : CursorHistoryProperties) : CursorHistoryProperties :=
  let hl0 := props.history_list ++ [mkEntry location ts]
  let hl := if hl0.length > max_entries then hl0.eraseIdx 0 else hl0
  { props with history_list := hl, active_index := (hl.length : Int) - 1 }

theorem addEntry_last_cursor_pos (location : Vec3) (ts : String)
    (props : CursorHistoryProperties) :
    (addEntryProps location ts props).last_cursor_pos = props.last_cursor_pos :=
  rfl

theorem addEntry_is_recording (location : Vec3) (ts : String)
    (props : CursorHistoryProperties) :
    (addEntryProps location ts props).is_recording = props.is_recording :=
  rfl

theorem eraseIdx_zero_eq_tail (l : List CursorHistoryEntry) :
    l.eraseIdx 0 = l.tail := by
  cases l <;> rfl

theorem addEntry_list_of_lt (location : Vec3) (ts : String)
    (props : CursorHistoryProperties)
    (h : props.history_list.length < max_entries) :
    (addEntryProps location ts props).history_list =
      props.history_list ++ [mkEntry location ts] := by
  have hc : ¬ ((props.history_list ++
      [mkEntry location ts]).length > max_entries) := by
    simp only [List.length_append, List.length_cons, List.length_nil]
    omega
  simp only [addEntryProps, hc, if_false]

theorem addEntry_list_of_ge (location : Vec3) (ts : String)
    (props : CursorHistoryProperties)
    (h : max_entries ≤ props.history_list.length) :
    (addEntryProps location ts props).history_list =
      (props.history_list ++ [mkEntry location ts]).tail := by
  have hc : (props.history_list ++
      [mkEntry location ts]).length > max_entries := by
    simp only [List.length_append, List.length_cons, List.length_nil]
    omega
  simp only [addEntryProps, hc, if_true, eraseIdx_zero_eq_tail]

theorem addEntry_length (location : Vec3) (ts : String)
    (props : CursorHistoryProperties) :
    (addEntryProps location ts props).history_list.length =
      if props.history_list.length < max_entries
      then props.history_list.length + 1
      else props.history_list.length := by
  by_cases h : props.history_list.length < max_entries
  · rw [addEntry_list_of_lt location ts props h, if_pos h]
    simp
  · rw [addEntry_list_of_ge location ts props (by omega), if_neg h]
    simp only [List.length_tail, List.length_append, List.length_cons,
      List.length_nil]
    omega

theorem addEntry_length_le (location : Vec3) (ts : String)
    (props : CursorHistoryProperties)
    (h : props.history_list.length ≤ max_entries) :
    (addEntryProps location ts props).history_list.length ≤ max_entries := by
  rw [addEntry_length]
  split <;> omega

theorem addEntry_length_pos (location : Vec3) (ts : String)
    (props : CursorHistoryProperties) :
    0 < (addEntryProps location ts props).history_list.length := by
  rw [addEntry_length]
  simp only [max_entries]
  split <;> omega

theorem addEntry_active_index (location : Vec3) (ts : String)
    (props : CursorHistoryProperties) :
    (addEntryProps location ts props).active_index =
      ((addEntryProps location ts props).history_list.length : Int) - 1 :=
  rfl

theorem addEntry_getLast (location : Vec3) (ts : String)
    (props : CursorHistoryProperties) :
    (addEntryProps location ts props).history_list.getLast? =
      some (mkEntry location ts) := by
  by_cases h : props.history_list.length < max_entries
  · rw [addEntry_list_of_lt location ts props h]
    simp
  · rw [addEntry_list_of_ge location ts props (by omega)]
    rcases hl : props.history_list with _ | ⟨a, l⟩
    · rw [hl] at h
      simp [max_entries] at h
    · simp only [List.cons_append, List.tail_cons]
      simp

/-- Claim C4: `append(position, timestamp)` adds the new entry at the end;
when the resulting length exceeds 100 it removes the entry at index 0,
keeping the surviving entries in order; it sets `active_index` to the index
of the just-appended entry (the new last index); and it is total, with no
error path. -/
theorem append_spec (props : CursorHistoryProperties) (location : Vec3)
    (ts : String) :
    (props.history_list.length < 100 →
      (addEntryProps location ts props).history_list =
        props.history_list ++ [mkEntry location ts]) ∧
    (100 ≤ props.history_list.length →
      (addEntryProps location ts props).history_list =
        (props.history_list ++ [mkEntry location ts]).tail) ∧
    (addEntryProps location ts props).history_list.getLast? =
      some (mkEntry location ts) ∧
    (addEntryProps location ts props).active_index =
      ((addEntryProps location ts props).history_list.length : Int) - 1 ∧
    (props.history_list.length ≤ 100 →
      (addEntryProps location ts props).history_list.length ≤ 100) := by
  refine ⟨?_, ?_, addEntry_getLast location ts props,
    addEntry_active_index location ts props, ?_⟩
  · exact addEntry_list_of_lt location ts props
  · exact addEntry_list_of_ge location ts props
  · exact addEntry_length_le location ts props

/-- A fixed sample timestamp string. -/
def tA : String := "10:00:00"

/-- A second fixed sample timestamp string. -/
def tB : String := "10:00:05"

/-- Operator completion status: every operator in the source unconditionally
ends with `return FINISHED`. -/
inductive OpStatus where
  | FINISHED
deriving DecidableEq, Repr

/-- The host collection's `remove(i)`: removes the element at index `i`;
an out-of-range index is a silent no-op in the host
(`RNA_property_collection_remove` skips the shift and still reports
success for idproperty-backed collections). -/
def collection_remove (l : List CursorHistoryEntry) (i : Int) :
    List CursorHistoryEntry :=
  if 0 ≤ i ∧ i < (l.length : Int) then l.eraseIdx i.toNat else l

/-- `CURSOR_OT_start_recording.execute`: sets `is_recording`, snapshots the
live cursor into `last_cursor_pos`, then records the current position.
Inside an operator the ambient `bpy.context.scene` is the operator's own
`context.scene`, so `add_cursor_history_entry` acts on the same store. -/
def CURSOR_OT_start_recording_execute (cursor : Vec3) (ts : String)
    (props : CursorHistoryProperties) : CursorHistoryProperties × OpStatus :=
  let props := { props with is_recording := true }
  let props := { props with last_cursor_pos := cursor }
  (addEntryProps cursor ts props, OpStatus.FINISHED)

/-- `CURSOR_OT_stop_recording.execute`: clears `is_recording` only. -/
def CURSOR_OT_stop_recording_execute (props : CursorHistoryProperties) :
    CursorHistoryProperties × OpStatus :=
  ({ props with is_recording := false }, OpStatus.FINISHED)

/-- `CURSOR_OT_delete_entry.execute`: guarded by a non-empty list and
`active_index >= 0`; removes the entry at `active_index`, then clamps
`active_index` when it fell past the new end. -/
def CURSOR_OT_delete_entry_execute (props : CursorHistoryProperties) :
    CursorHistoryProperties × OpStatus :=
  if props.history_list ≠ [] ∧ 0 ≤ props.active_index then
    let hl := collection_remove props.history_list props.active_index
    let props := { props with history_list := hl }
    if (hl.length : Int) ≤ props.active_index then
      ({ props with active_index := (hl.length : Int) - 1 }, OpStatus.FINISHED)
    else (props, OpStatus.FINISHED)
  else (props, OpStatus.FINISHED)

/-- `CURSOR_OT_clear_history.execute`: clears the collection and resets
`active_index` to 0. -/
def CURSOR_OT_clear_history_execute (props : CursorHistoryProperties) :
    CursorHistoryProperties × OpStatus :=
  ({ props with history_list := [], active_index := 0 }, OpStatus.FINISHED)

/-- `CURSOR_OT_jump_to_position.execute`: guarded like delete; reads the
selected entry, suspends the recording flag, writes the host cursor and
`last_cursor_pos`, then restores the flag.  Indexing past the end of the
collection is not reached by any state this development considers; the host
would raise `IndexError` there, and the branch is kept as the identity. -/
def CURSOR_OT_jump_to_position_execute (props : CursorHistoryProperties)
    (cursor : Vec3) : CursorHistoryProperties × Vec3 × OpStatus :=
  if props.history_list ≠ [] ∧ 0 ≤ props.active_index then
    match props.history_list[props.active_index.toNat]? with
    | some entry =>
        let was_recording := props.is_recording
        let props := { props with is_recording := false }
        let cursor := entry.location
        let props := { props with last_cursor_pos := entry.location }
        let props := { props with is_recording := was_recording }
        (props, cursor, OpStatus.FINISHED)
    | none => (props, cursor, OpStatus.FINISHED)
  else (props, cursor, OpStatus.FINISHED)

/-- Claim C7: JumpToSelected with a non-empty store and valid selection
moves the live cursor and `last_cursor_pos` to the selected entry's
location, preserves `is_recording` (whatever its prior value), leaves the
entries and `active_index` untouched, and appends nothing. -/
theorem jump_spec (props : CursorHistoryProperties) (cursor : Vec3)
    (entry : CursorHistoryEntry)
    (hne : props.history_list ≠ [])
    (h0 : 0 ≤ props.active_index)
    (hget : props.history_list[props.active_index.toNat]? = some entry) :
    CURSOR_OT_jump_to_position_execute props cursor =
      ({ props with last_cursor_pos := entry.location },
        entry.location, OpStatus.FINISHED) := by
  simp only [CURSOR_OT_jump_to_position_execute, hget]
  rw [if_pos ⟨hne, h0⟩]

/-- The JumpToSelected scenario store of the spec: two entries, the first
selected, recording enabled. -/
def jumpScenarioProps : CursorHistoryProperties :=
  { history_list := [mkEntry ⟨1, 0, 0⟩ tA, mkEntry ⟨2, 0, 0⟩ tB]
    active_index := 0, is_recording := true, last_cursor_pos := ⟨0, 0, 0⟩ }

theorem jump_spec_witness :
    jumpScenarioProps.history_list ≠ [] ∧
    0 ≤ jumpScenarioProps.active_index ∧
    jumpScenarioProps.history_list[jumpScenarioProps.active_index.toNat]? =
      some (mkEntry ⟨1, 0, 0⟩ tA) ∧
    CURSOR_OT_jump_to_position_execute jumpScenarioProps ⟨9, 9, 9⟩ =
      ({ jumpScenarioProps with last_cursor_pos := ⟨1, 0, 0⟩ },
        ⟨1, 0, 0⟩, OpStatus.FINISHED) :=
  ⟨by decide, by decide, by decide,
    jump_spec jumpScenarioProps ⟨9, 9, 9⟩ (mkEntry ⟨1, 0, 0⟩ tA)
      (by decide) (by decide) (by decide)⟩

/-- Claim C8: StartRecording sets `is_recording`, sets `last_cursor_pos` to
the live cursor position, records one entry for it, and reports FINISHED;
from an empty store the result is exactly one entry at the cursor with
`active_index = 0`. -/
theorem start_recording_spec (props : CursorHistoryProperties)
    (cursor : Vec3) (ts : String) :
    (CURSOR_OT_start_recording_execute cursor ts props).1.is_recording = true ∧
    (CURSOR_OT_start_recording_execute cursor ts props).1.last_cursor_pos =
      cursor ∧
    (CURSOR_OT_start_recording_execute cursor ts props).2 =
      OpStatus.FINISHED ∧
    (props.history_list = [] →
      (CURSOR_OT_start_recording_execute cursor ts props).1 =
        { history_list := [mkEntry cursor ts], active_index := 0
          is_recording := true, last_cursor_pos := cursor }) := by
  refine ⟨?_, ?_, rfl, ?_⟩
  · simp only [CURSOR_OT_start_recording_execute]
    rw [addEntry_is_recording]
  · simp only [CURSOR_OT_start_recording_execute]
    rw [addEntry_last_cursor_pos]
  · intro hempty
    obtain ⟨hl, ai, ir, lp⟩ := props
    simp only at hempty
    subst hempty
    simp [CURSOR_OT_start_recording_execute, addEntryProps, max_entries]

theorem start_recording_spec_witness :
    initialProps.history_list = [] ∧
    (CURSOR_OT_start_recording_execute ⟨3, 3, 3⟩ tA initialProps).1 =
      { history_list := [mkEntry ⟨3, 3, 3⟩ tA], active_index := 0
        is_recording := true, last_cursor_pos := ⟨3, 3, 3⟩ } :=
  ⟨rfl, (start_recording_spec initialProps ⟨3, 3, 3⟩ tA).2.2.2 rfl⟩

theorem append_spec_witness :
    initialProps.history_list.length < 100 ∧
    (addEntryProps ⟨1, 2, 3⟩ tA initialProps).history_list =
      [⟨⟨1, 2, 3⟩, tA⟩] ∧
    (addEntryProps ⟨1, 2, 3⟩ tA initialProps).active_index = 0 := by
  have h := append_spec initialProps ⟨1, 2, 3⟩ tA
  refine ⟨by decide, ?_, ?_⟩
  · simpa using h.1 (by decide)
  · have h2 := h.2.2.2.1
    rw [h.1 (by decide)] at h2
    simpa using h2

/-- Claim C9: DeleteSelected with a valid selection removes exactly the
entry at `active_index`, shortening the list by one while keeping the
survivors in order, and clamps `active_index` to the minimum of its old
value and the new last index; deleting the only entry leaves the sentinel
`active_index = -1`.  The recording flag and last position are untouched. -/
theorem delete_valid_spec (props : CursorHistoryProperties)
    (h0 : 0 ≤ props.active_index)
    (hlt : props.active_index < (props.history_list.length : Int)) :
    (CURSOR_OT_delete_entry_execute props).1.history_list =
      props.history_list.take props.active_index.toNat ++
        props.history_list.drop (props.active_index.toNat + 1) ∧
    (CURSOR_OT_delete_entry_execute props).1.history_list.length =
      props.history_list.length - 1 ∧
    (CURSOR_OT_delete_entry_execute props).1.active_index =
      min props.active_index ((props.history_list.length : Int) - 2) ∧
    ((CURSOR_OT_delete_entry_execute props).1.history_list = [] →
      (CURSOR_OT_delete_entry_execute props).1.active_index = -1) ∧
    (CURSOR_OT_delete_entry_execute props).1.is_recording =
      props.is_recording ∧
    (CURSOR_OT_delete_entry_execute props).1.last_cursor_pos =
      props.last_cursor_pos ∧
    (CURSOR_OT_delete_entry_execute props).2 = OpStatus.FINISHED := by
  have hne : props.history_list ≠ [] := by
    intro hnil
    rw [hnil] at hlt
    simp only [List.length_nil, Nat.cast_zero] at hlt
    omega
  have hidx : props.active_index.toNat < props.history_list.length := by
    omega
  have herase : collection_remove props.history_list props.active_index =
      props.history_list.eraseIdx props.active_index.toNat := by
    simp only [collection_remove]
    rw [if_pos ⟨h0, hlt⟩]
  have hlen : (props.history_list.eraseIdx props.active_index.toNat).length =
      props.history_list.length - 1 := by
    have := List.length_eraseIdx_add_one hidx
    omega
  by_cases hcl :
      ((props.history_list.eraseIdx props.active_index.toNat).length : Int) ≤
        props.active_index
  · have hres : CURSOR_OT_delete_entry_execute props =
        ({ props with
            history_list :=
              props.history_list.eraseIdx props.active_index.toNat
            active_index :=
              ((props.history_list.eraseIdx
                props.active_index.toNat).length : Int) - 1 },
          OpStatus.FINISHED) := by
      simp only [CURSOR_OT_delete_entry_execute, herase]
      rw [if_pos ⟨hne, h0⟩, if_pos hcl]
    rw [hres]
    dsimp only
    refine ⟨List.eraseIdx_eq_take_drop_succ _ _, hlen, by omega, ?_,
      rfl, rfl, rfl⟩
    intro hnil
    have hz : (props.history_list.eraseIdx
        props.active_index.toNat).length = 0 := by
      rw [hnil]
      rfl
    simp only [hz, Nat.cast_zero]
    rfl
  · have hres : CURSOR_OT_delete_entry_execute props =
        ({ props with
            history_list :=
              props.history_list.eraseIdx props.active_index.toNat },
          OpStatus.FINISHED) := by
      simp only [CURSOR_OT_delete_entry_execute, herase]
      rw [if_pos ⟨hne, h0⟩, if_neg hcl]
    rw [hres]
    dsimp only
    refine ⟨List.eraseIdx_eq_take_drop_succ _ _, hlen, by omega, ?_,
      rfl, rfl, rfl⟩
    intro hnil
    have hz : (props.history_list.eraseIdx
        props.active_index.toNat).length = 0 := by
      rw [hnil]
      rfl
    omega

theorem delete_valid_spec_witness :
    0 ≤ jumpScenarioProps.active_index ∧
    jumpScenarioProps.active_index <
      (jumpScenarioProps.history_list.length : Int) ∧
    (CURSOR_OT_delete_entry_execute jumpScenarioProps).1.history_list =
      [mkEntry ⟨2, 0, 0⟩ tB] ∧
    (CURSOR_OT_delete_entry_execute jumpScenarioProps).1.active_index = 0 :=
  ⟨by decide, by decide,
    by
      have h := delete_valid_spec jumpScenarioProps (by decide) (by decide)
      rw [h.1]
      decide,
    by
      have h := delete_valid_spec jumpScenarioProps (by decide) (by decide)
      rw [h.2.2.1]
      decide⟩

/-- A store whose `active_index` (5) is past the end of its two entries:
the delete guard `active_index >= 0` still passes on it. -/
def invalidIndexProps : CursorHistoryProperties :=
  { history_list := [mkEntry ⟨1, 0, 0⟩ tA, mkEntry ⟨2, 0, 0⟩ tB]
    active_index := 5, is_recording := false, last_cursor_pos := ⟨0, 0, 0⟩ }

/-- Claim C10, counterexample: with two entries and `active_index = 5` the
precondition "active_index is a valid index" is unmet, yet
`CURSOR_OT_delete_entry.execute` is not a no-op: the clamp branch rewrites
`active_index` to 1. -/
theorem delete_unmet_not_noop :
    (invalidIndexProps.history_list = [] ∨
      ¬ (0 ≤ invalidIndexProps.active_index ∧
        invalidIndexProps.active_index <
          (invalidIndexProps.history_list.length : Int))) ∧
    (CURSOR_OT_delete_entry_execute invalidIndexProps).1 ≠
      invalidIndexProps ∧
    (CURSOR_OT_delete_entry_execute invalidIndexProps).1.active_index = 1 :=
  ⟨Or.inr (by decide), by decide, by decide⟩

/-- Claim C10 as amended: on an empty store or a negative `active_index`
the delete operator is a no-op; with a non-empty store and `active_index`
at or past the length, no entry is removed and no fault is raised (the host
collection ignores the out-of-range remove), but `active_index` is clamped
to the last valid index; in every case the operator reports FINISHED. -/
theorem delete_unmet_spec (props : CursorHistoryProperties) :
    ((props.history_list = [] ∨ props.active_index < 0) →
      (CURSOR_OT_delete_entry_execute props).1 = props) ∧
    ((props.history_list ≠ [] ∧
        (props.history_list.length : Int) ≤ props.active_index) →
      (CURSOR_OT_delete_entry_execute props).1 =
        { props with
            active_index := (props.history_list.length : Int) - 1 }) ∧
    (CURSOR_OT_delete_entry_execute props).2 = OpStatus.FINISHED := by
  refine ⟨?_, ?_, ?_⟩
  · intro hbad
    simp only [CURSOR_OT_delete_entry_execute]
    rw [if_neg]
    rintro ⟨hne, h0⟩
    rcases hbad with hnil | hneg
    · exact hne hnil
    · omega
  · rintro ⟨hne, hge⟩
    have h0 : 0 ≤ props.active_index := by
      have : 0 < props.history_list.length := List.length_pos.mpr hne
      omega
    have hnop : collection_remove props.history_list props.active_index =
        props.history_list := by
      simp only [collection_remove]
      rw [if_neg]
      rintro ⟨-, hlt⟩
      omega
    simp only [CURSOR_OT_delete_entry_execute, hnop]
    rw [if_pos ⟨hne, h0⟩, if_pos hge]
  · simp only [CURSOR_OT_delete_entry_execute]

theorem delete_unmet_spec_witness :
    (initialProps.history_list = [] ∨ initialProps.active_index < 0) ∧
    (CURSOR_OT_delete_entry_execute initialProps).1 = initialProps ∧
    (invalidIndexProps.history_list ≠ [] ∧
      (invalidIndexProps.history_list.length : Int) ≤
        invalidIndexProps.active_index) ∧
    (CURSOR_OT_delete_entry_execute invalidIndexProps).1 =
      { invalidIndexProps with active_index := 1 } :=
  ⟨Or.inl rfl,
    (delete_unmet_spec initialProps).1 (Or.inl rfl),
    ⟨by decide, by decide⟩,
    by
      have h := (delete_unmet_spec invalidIndexProps).2.1
        ⟨by decide, by decide⟩
      rw [h]
      decide⟩

/-- The History Store invariant of the spec: at most 100 entries, and a
valid `active_index` whenever the store is non-empty. -/
def StoreInv (props : CursorHistoryProperties) : Prop :=
  props.history_list.length ≤ max_entries ∧
  (props.history_list ≠ [] →
    0 ≤ props.active_index ∧
    props.active_index < (props.history_list.length : Int))

/-- The store-mutating operations reachable from the UI and the detector:
`append` stands for `add_cursor_history_entry` (detector path with the
context scene equal to the delivered scene, or the operator path). -/
inductive Op where
  | append (location : Vec3) (ts : String)
  | deleteSelected
  | clearAll
  | startRecording (cursor : Vec3) (ts : String)
  | stopRecording
  | jumpToSelected (cursor : Vec3)
deriving DecidableEq, Repr

/-- Apply one operation to a store. -/
def applyOp (props : CursorHistoryProperties) : Op → CursorHistoryProperties
  | Op.append location ts => addEntryProps location ts props
  | Op.deleteSelected => (CURSOR_OT_delete_entry_execute props).1
  | Op.clearAll => (CURSOR_OT_clear_history_execute props).1
  | Op.startRecording cursor ts =>
      (CURSOR_OT_start_recording_execute cursor ts props).1
  | Op.stopRecording => (CURSOR_OT_stop_recording_execute props).1
  | Op.jumpToSelected cursor =>
      (CURSOR_OT_jump_to_position_execute props cursor).1

/-- Apply a sequence of operations, oldest first. -/
def applyOps (props : CursorHistoryProperties) (ops : List Op) :
    CursorHistoryProperties :=
  ops.foldl applyOp props

theorem storeInv_addEntry (location : Vec3) (ts : String)
    (props : CursorHistoryProperties) (h : StoreInv props) :
    StoreInv (addEntryProps location ts props) := by
  refine ⟨addEntry_length_le location ts props h.1, fun _ => ?_⟩
  rw [addEntry_active_index]
  have hpos := addEntry_length_pos location ts props
  omega

theorem storeInv_delete (props : CursorHistoryProperties)
    (h : StoreInv props) :
    StoreInv (CURSOR_OT_delete_entry_execute props).1 := by
  by_cases hg : props.history_list ≠ [] ∧ 0 ≤ props.active_index
  · obtain ⟨hne, h0⟩ := hg
    obtain ⟨hv0, hvlt⟩ := h.2 hne
    have hd := delete_valid_spec props h0 hvlt
    obtain ⟨-, hlen, hmin, hempty, -, -, -⟩ := hd
    constructor
    · rw [hlen]
      have hle := h.1
      omega
    · intro hne2
      have hpos : 0 < (CURSOR_OT_delete_entry_execute
          props).1.history_list.length := List.length_pos.mpr hne2
      rw [hlen] at hpos
      rw [hmin, hlen, Int.min_def]
      split <;> omega
  · have hres : CURSOR_OT_delete_entry_execute props =
        (props, OpStatus.FINISHED) := by
      simp only [CURSOR_OT_delete_entry_execute]
      rw [if_neg hg]
    rw [hres]
    exact h

theorem storeInv_jump (props : CursorHistoryProperties) (cursor : Vec3)
    (h : StoreInv props) :
    StoreInv (CURSOR_OT_jump_to_position_execute props cursor).1 := by
  simp only [CURSOR_OT_jump_to_position_execute]
  split
  · split
    · exact h
    · exact h
  · exact h

theorem storeInv_applyOp (props : CursorHistoryProperties) (op : Op)
    (h : StoreInv props) : StoreInv (applyOp props op) := by
  cases op with
  | append location ts => exact storeInv_addEntry location ts props h
  | deleteSelected => exact storeInv_delete props h
  | clearAll =>
      refine ⟨?_, ?_⟩
      · simp [applyOp, CURSOR_OT_clear_history_execute]
      · intro hne
        simp [applyOp, CURSOR_OT_clear_history_execute] at hne
  | startRecording cursor ts =>
      refine storeInv_addEntry cursor ts _ ⟨h.1, fun hne => h.2 hne⟩
  | stopRecording => exact ⟨h.1, fun hne => h.2 hne⟩
  | jumpToSelected cursor => exact storeInv_jump props cursor h

theorem storeInv_applyOps (props : CursorHistoryProperties)
    (ops : List Op) (h : StoreInv props) :
    StoreInv (applyOps props ops) := by
  induction ops generalizing props with
  | nil => exact h
  | cons op rest ih => exact ih (applyOp props op) (storeInv_applyOp props op h)

/-- Claim C3: every state reachable from the initial store by appends and
the five commands keeps at most 100 entries, with a valid `active_index`
whenever the store is non-empty. -/
theorem store_invariant_reachable (ops : List Op) :
    (applyOps initialProps ops).history_list.length ≤ 100 ∧
    ((applyOps initialProps ops).history_list ≠ [] →
      0 ≤ (applyOps initialProps ops).active_index ∧
      (applyOps initialProps ops).active_index <
        ((applyOps initialProps ops).history_list.length : Int)) :=
  storeInv_applyOps initialProps ops ⟨by decide, by decide⟩

theorem store_invariant_reachable_witness :
    (applyOps initialProps
        [Op.append ⟨1, 1, 1⟩ tA, Op.deleteSelected,
          Op.startRecording ⟨3, 3, 3⟩ tB, Op.jumpToSelected ⟨0, 0, 0⟩,
          Op.stopRecording, Op.clearAll]).history_list.length ≤ 100 :=
  (store_invariant_reachable
    [Op.append ⟨1, 1, 1⟩ tA, Op.deleteSelected,
      Op.startRecording ⟨3, 3, 3⟩ tB, Op.jumpToSelected ⟨0, 0, 0⟩,
      Op.stopRecording, Op.clearAll]).1

/-- A scene as the handler sees it: its live 3D cursor location and its
attached `cursor_history_props` (every scene carries the registered
pointer property, so the `hasattr` guard in the handler always passes). -/
structure Scene where
  cursor : Vec3
  props : CursorHistoryProperties

/-- The host state the handler interacts with: all scenes (indexed by a
scene identifier) plus the ambient `bpy.context.scene`. -/
structure World where
  scenes : Nat → Scene
  context_scene : Nat

/-- Replace the `cursor_history_props` of scene `i`. -/
def World.updPropsAt (w : World) (i : Nat) (p : CursorHistoryProperties) :
    World :=
  { w with scenes := Function.update w.scenes i { w.scenes i with props := p } }

/-- `add_cursor_history_entry(location)` from the source: it fetches its
store through `bpy.context.scene.cursor_history_props`, i.e. from the
ambient context scene, whatever scene its caller was working on. -/
def add_cursor_history_entry (w : World) (location : Vec3) (ts : String) :
    World :=
  w.updPropsAt w.context_scene
    (addEntryProps location ts (w.scenes w.context_scene).props)

/-- Squared Euclidean distance between two positions.  The source compares
`(current_pos - last_pos).length > 0.001`; both sides are non-negative, so
the comparison is equivalent to comparing the squared length against the
squared tolerance, which stays inside ℚ. -/
def distSq (a b : Vec3) : ℚ :=
  (a.x - b.x) ^ 2 + (a.y - b.y) ^ 2 + (a.z - b.z) ^ 2

/-- The squared tolerance: `0.001 ^ 2`. -/
def tolSq : ℚ := (1 / 1000) ^ 2

/-- `cursor_position_handler(scene)` from the source: reads the recording
flag, the cursor and `last_cursor_pos` from the scene `s` it was delivered
for, but appends through `add_cursor_history_entry`, which uses the ambient
context scene; afterwards it writes `last_cursor_pos` on scene `s`. -/
def cursor_position_handler (w : World) (s : Nat) (ts : String) : World :=
  let props := (w.scenes s).props
  if props.is_recording = false then w
  else
    let current_pos := (w.scenes s).cursor
    let last_pos := props.last_cursor_pos
    if distSq current_pos last_pos > tolSq then
      let w1 := add_cursor_history_entry w current_pos ts
      w1.updPropsAt s
        { (w1.scenes s).props with last_cursor_pos := current_pos }
    else w

/-- A world with two scenes where the ambient context scene (scene 1) is
not the scene the update notification is delivered for (scene 0): scene 0
is recording and its cursor has moved far from its `last_cursor_pos`. -/
def crossWorld : World :=
  { scenes := fun i =>
      if i = 0 then
        { cursor := ⟨5, 5, 5⟩
          props := { history_list := [], active_index := 0
                     is_recording := true, last_cursor_pos := ⟨0, 0, 0⟩ } }
      else
        { cursor := ⟨0, 0, 0⟩
          props := { history_list := [], active_index := 0
                     is_recording := false, last_cursor_pos := ⟨0, 0, 0⟩ } }
    context_scene := 1 }

/-- Claim C1, demonstration of the divergence: delivering the update for
scene 0 while the context scene is scene 1 appends the recorded entry to
scene 1's History Store (and moves its `active_index`), while scene 0 only
gets its `last_cursor_pos` updated — another scene's store changed. -/
theorem handler_mutates_context_scene :
    ((cursor_position_handler crossWorld 0 tA).scenes 1).props.history_list =
      [mkEntry ⟨5, 5, 5⟩ tA] ∧
    ((cursor_position_handler crossWorld 0 tA).scenes 0).props.history_list =
      [] ∧
    ((cursor_position_handler crossWorld 0 tA).scenes 0).props.last_cursor_pos =
      ⟨5, 5, 5⟩ ∧
    ((cursor_position_handler crossWorld 0 tA).scenes 1).props.active_index =
      0 := by
  have hd : distSq (⟨5, 5, 5⟩ : Vec3) ⟨0, 0, 0⟩ > tolSq := by
    norm_num [distSq, tolSq]
  refine ⟨?_, ?_, ?_, ?_⟩ <;>
    simp [cursor_position_handler, add_cursor_history_entry, crossWorld,
      World.updPropsAt, Function.update, addEntryProps, hd, max_entries,
      mkEntry, tA]

/-- Claim C5: with recording on and the context scene equal to the
delivered scene (the setting of the spec scenario), the detector compares
the displacement strictly against the tolerance: at or below the tolerance
nothing at all changes; strictly above it, the handler's effect on the
scene's store is exactly an append of the current position followed by a
`last_cursor_pos` update. -/
theorem handler_tolerance_strict (w : World) (s : Nat) (ts : String)
    (hctx : w.context_scene = s)
    (hrec : (w.scenes s).props.is_recording = true) :
    (distSq (w.scenes s).cursor (w.scenes s).props.last_cursor_pos ≤ tolSq →
      cursor_position_handler w s ts = w) ∧
    (distSq (w.scenes s).cursor (w.scenes s).props.last_cursor_pos > tolSq →
      ((cursor_position_handler w s ts).scenes s).props =
        { addEntryProps (w.scenes s).cursor ts (w.scenes s).props with
            last_cursor_pos := (w.scenes s).cursor } ∧
      ((w.scenes s).props.history_list.length < 100 →
        ((cursor_position_handler w s ts).scenes s).props.history_list =
          (w.scenes s).props.history_list ++
            [mkEntry (w.scenes s).cursor ts])) := by
  constructor
  · intro hle
    have hnot : ¬ (distSq (w.scenes s).cursor
        (w.scenes s).props.last_cursor_pos > tolSq) := not_lt.mpr hle
    simp [cursor_position_handler, hrec, hnot]
  · intro hgt
    have hp : ((cursor_position_handler w s ts).scenes s).props =
        { addEntryProps (w.scenes s).cursor ts (w.scenes s).props with
            last_cursor_pos := (w.scenes s).cursor } := by
      simp [cursor_position_handler, hrec, hgt, add_cursor_history_entry,
        World.updPropsAt, hctx, Function.update]
    refine ⟨hp, fun hlen => ?_⟩
    rw [hp]
    exact addEntry_list_of_lt _ _ _ hlen

/-- A store that is recording, with `last_cursor_pos` at the origin. -/
def recordingAtOrigin : CursorHistoryProperties :=
  { history_list := [], active_index := 0, is_recording := true
    last_cursor_pos := ⟨0, 0, 0⟩ }

/-- One scene, recording, cursor exactly at tolerance distance. -/
def boundaryWorld : World :=
  { scenes := fun _ => ⟨⟨0, 0, 1 / 1000⟩, recordingAtOrigin⟩
    context_scene := 0 }

/-- One scene, recording, cursor just past tolerance distance. -/
def overWorld : World :=
  { scenes := fun _ => ⟨⟨0, 0, 11 / 10000⟩, recordingAtOrigin⟩
    context_scene := 0 }

theorem handler_tolerance_strict_witness :
    distSq (boundaryWorld.scenes 0).cursor
      (boundaryWorld.scenes 0).props.last_cursor_pos ≤ tolSq ∧
    cursor_position_handler boundaryWorld 0 tA = boundaryWorld ∧
    distSq (overWorld.scenes 0).cursor
      (overWorld.scenes 0).props.last_cursor_pos > tolSq ∧
    ((cursor_position_handler overWorld 0 tA).scenes 0).props.history_list =
      [mkEntry ⟨0, 0, 11 / 10000⟩ tA] ∧
    ((cursor_position_handler overWorld 0 tA).scenes
      0).props.last_cursor_pos = ⟨0, 0, 11 / 10000⟩ := by
  have hb : distSq (boundaryWorld.scenes 0).cursor
      (boundaryWorld.scenes 0).props.last_cursor_pos ≤ tolSq := by
    show distSq ⟨0, 0, 1 / 1000⟩ ⟨0, 0, 0⟩ ≤ tolSq
    norm_num [distSq, tolSq]
  have ho : distSq (overWorld.scenes 0).cursor
      (overWorld.scenes 0).props.last_cursor_pos > tolSq := by
    show distSq ⟨0, 0, 11 / 10000⟩ ⟨0, 0, 0⟩ > tolSq
    norm_num [distSq, tolSq]
  have h1 := (handler_tolerance_strict boundaryWorld 0 tA rfl rfl).1 hb
  have h2 := (handler_tolerance_strict overWorld 0 tA rfl rfl).2 ho
  refine ⟨hb, h1, ho, ?_, ?_⟩
  · have := h2.2 (by norm_num [overWorld, recordingAtOrigin])
    simpa [overWorld, recordingAtOrigin] using this
  · rw [h2.1]
    rfl

/-- Write a new live cursor position into scene `s` (a host-side move of
the 3D cursor between two update notifications). -/
def set_cursor (w : World) (s : Nat) (c : Vec3) : World :=
  { w with scenes := Function.update w.scenes s { w.scenes s with cursor := c } }

/-- Deliver a sequence of update notifications; before each one the host
moves the named scene's cursor to the given position. -/
def run_handlers (w : World) (ds : List (Nat × Vec3 × String)) : World :=
  ds.foldl
    (fun acc p => cursor_position_handler (set_cursor acc p.1 p.2.1) p.1 p.2.2)
    w

theorem set_cursor_props (w : World) (s : Nat) (c : Vec3) (s' : Nat) :
    ((set_cursor w s c).scenes s').props = (w.scenes s').props := by
  by_cases h : s' = s
  · subst h
    simp [set_cursor, Function.update]
  · simp [set_cursor, Function.update, h]

theorem handler_not_recording (w : World) (s : Nat) (ts : String)
    (h : (w.scenes s).props.is_recording = false) :
    cursor_position_handler w s ts = w := by
  simp [cursor_position_handler, h]

/-- Claim C6: over any sequence of update notifications, with arbitrary
cursor moves in between, every scene whose recording flag is off keeps its
History Store (all of `cursor_history_props`) completely unchanged. -/
theorem not_recording_no_mutation (w : World)
    (ds : List (Nat × Vec3 × String)) :
    (∀ p ∈ ds, (w.scenes p.1).props.is_recording = false) →
    ∀ s, ((run_handlers w ds).scenes s).props = (w.scenes s).props := by
  induction ds generalizing w with
  | nil =>
      intro h s
      rfl
  | cons d rest ih =>
      intro h s
      have hrec0 : ((set_cursor w d.1 d.2.1).scenes
          d.1).props.is_recording = false := by
        rw [set_cursor_props]
        exact h d (List.mem_cons_self d rest)
      have hstep : cursor_position_handler (set_cursor w d.1 d.2.1) d.1
          d.2.2 = set_cursor w d.1 d.2.1 :=
        handler_not_recording _ _ _ hrec0
      have hrun : run_handlers w (d :: rest) =
          run_handlers (set_cursor w d.1 d.2.1) rest := by
        show run_handlers
          (cursor_position_handler (set_cursor w d.1 d.2.1) d.1 d.2.2)
          rest = run_handlers (set_cursor w d.1 d.2.1) rest
        rw [hstep]
      have hrest : ∀ p ∈ rest,
          ((set_cursor w d.1 d.2.1).scenes p.1).props.is_recording = false := by
        intro p hp
        rw [set_cursor_props]
        exact h p (List.mem_cons_of_mem d hp)
      calc ((run_handlers w (d :: rest)).scenes s).props
          = ((run_handlers (set_cursor w d.1 d.2.1) rest).scenes s).props := by
            rw [hrun]
        _ = ((set_cursor w d.1 d.2.1).scenes s).props := ih _ hrest s
        _ = (w.scenes s).props := set_cursor_props w d.1 d.2.1 s

/-- A world no scene of which is recording. -/
def idleWorld : World :=
  { scenes := fun _ => ⟨⟨0, 0, 0⟩, initialProps⟩, context_scene := 0 }

/-- Three deliveries with large cursor jumps between them. -/
def bigMoves : List (Nat × Vec3 × String) :=
  [(0, ⟨100, 0, 0⟩, tA), (1, ⟨-50, 7, 3⟩, tB), (0, ⟨0, 0, 0⟩, tB)]

theorem not_recording_no_mutation_witness :
    (∀ p ∈ bigMoves, (idleWorld.scenes p.1).props.is_recording = false) ∧
    ((run_handlers idleWorld bigMoves).scenes 0).props = initialProps := by
  have h : ∀ p ∈ bigMoves,
      (idleWorld.scenes p.1).props.is_recording = false := by
    intro p hp
    rfl
  exact ⟨h, not_recording_no_mutation idleWorld bigMoves h 0⟩

/-- The one handler this add-on registers. -/
inductive HandlerId where
  | cursor_position_handler
deriving DecidableEq, Repr

/-- The classes listed in the module-level `classes` list. -/
inductive ClsId where
  | CursorHistoryEntry
  | CursorHistoryProperties
  | CURSOR_UL_history_list
  | CURSOR_OT_start_recording
  | CURSOR_OT_stop_recording
  | CURSOR_OT_delete_entry
  | CURSOR_OT_clear_history
  | CURSOR_OT_jump_to_position
  | CURSOR_PT_history_panel
deriving DecidableEq, Repr

/-- The module-level `classes` list, in source order. -/
def classes : List ClsId :=
  [ClsId.CursorHistoryEntry, ClsId.CursorHistoryProperties,
    ClsId.CURSOR_UL_history_list, ClsId.CURSOR_OT_start_recording,
    ClsId.CURSOR_OT_stop_recording, ClsId.CURSOR_OT_delete_entry,
    ClsId.CURSOR_OT_clear_history, ClsId.CURSOR_OT_jump_to_position,
    ClsId.CURSOR_PT_history_panel]

/-- Host-process state touched by `register`/`unregister`: the class
registry, whether `bpy.types.Scene.cursor_history_props` is set, and the
`depsgraph_update_post` handler list. -/
structure HostState where
  registered_classes : List ClsId
  scene_pointer_registered : Bool
  handlers : List HandlerId
deriving DecidableEq, Repr

/-- Faults the host raises on unbalanced registration calls. -/
inductive RegError where
  | alreadyRegistered (c : ClsId)
  | notRegistered (c : ClsId)
  | attributeError
deriving DecidableEq, Repr

/-- A fresh host: nothing registered. -/
def initHost : HostState :=
  { registered_classes := [], scene_pointer_registered := false
    handlers := [] }

/-- `bpy.utils.register_class`: raises when the class is already
registered. -/
def register_class (st : HostState) (c : ClsId) : Except RegError HostState :=
  if c ∈ st.registered_classes then Except.error (RegError.alreadyRegistered c)
  else Except.ok
    { st with registered_classes := st.registered_classes ++ [c] }

/-- `bpy.utils.unregister_class`: raises when the class is not
registered. -/
def unregister_class (st : HostState) (c : ClsId) :
    Except RegError HostState :=
  if c ∈ st.registered_classes then
    Except.ok { st with registered_classes := st.registered_classes.erase c }
  else Except.error (RegError.notRegistered c)

/-- The guarded handler append in `register`: skipped when the handler is
already in `bpy.app.handlers.depsgraph_update_post`. -/
def add_handler (hl : List HandlerId) : List HandlerId :=
  if HandlerId.cursor_position_handler ∈ hl then hl
  else hl ++ [HandlerId.cursor_position_handler]

/-- The guarded handler removal in `unregister`: skipped when absent. -/
def remove_handler (hl : List HandlerId) : List HandlerId :=
  if HandlerId.cursor_position_handler ∈ hl then
    hl.erase HandlerId.cursor_position_handler
  else hl

/-- `register()`: register every class in order (the host raises on a
duplicate), assign the `Scene.cursor_history_props` pointer property
(plain assignment, never raises), then append the handler behind its
membership guard. -/
def register (st : HostState) : Except RegError HostState :=
  match classes.foldlM register_class st with
  | Except.error e => Except.error e
  | Except.ok st1 =>
      let st2 := { st1 with scene_pointer_registered := true }
      Except.ok { st2 with handlers := add_handler st2.handlers }

/-- `unregister()`: remove the handler behind its membership guard, then
`del bpy.types.Scene.cursor_history_props` — an unguarded attribute delete
that raises `AttributeError` when the pointer was never registered — then
unregister the classes in reverse order. -/
def unregister (st : HostState) : Except RegError HostState :=
  let st1 := { st with handlers := remove_handler st.handlers }
  if st1.scene_pointer_registered then
    classes.reverse.foldlM unregister_class
      { st1 with scene_pointer_registered := false }
  else Except.error RegError.attributeError

/-- Claim C2, counterexample: calling `unregister()` on a host where
`register()` never ran raises: the handler removal is indeed skipped by
its guard, but the `del` of the never-assigned scene pointer property
faults with `AttributeError`. -/
theorem unregister_unregistered_raises :
    unregister initHost = Except.error RegError.attributeError ∧
    HandlerId.cursor_position_handler ∉ initHost.handlers := by
  exact ⟨rfl, by decide⟩

/-- The host state right after a successful `register()` from scratch. -/
def registeredHost : HostState :=
  { registered_classes := classes, scene_pointer_registered := true
    handlers := [HandlerId.cursor_position_handler] }

/-- Claim C2 as amended: only the update-callback registration and removal
are guard-checked and idempotent (the append is skipped when the callback
is present, the removal when absent); the scene extension point and the
class registrations are unguarded, so `register()` twice in a row raises
on re-registering a class, and `unregister()` twice in a row or without a
prior `register()` raises `AttributeError` on deleting the extension
point.  A balanced `register()`/`unregister()` pair succeeds and restores
the fresh host state. -/
theorem register_unregister_guard_spec :
    (∀ hl : List HandlerId, HandlerId.cursor_position_handler ∈ hl →
      add_handler hl = hl) ∧
    (∀ hl : List HandlerId, HandlerId.cursor_position_handler ∉ hl →
      remove_handler hl = hl) ∧
    register initHost = Except.ok registeredHost ∧
    register registeredHost =
      Except.error (RegError.alreadyRegistered ClsId.CursorHistoryEntry) ∧
    unregister registeredHost = Except.ok initHost ∧
    unregister initHost = Except.error RegError.attributeError := by
  refine ⟨?_, ?_, rfl, rfl, rfl, rfl⟩
  · intro hl hmem
    simp [add_handler, hmem]
  · intro hl hmem
    simp [remove_handler, hmem]

theorem register_unregister_guard_witness :
    HandlerId.cursor_position_handler ∈ [HandlerId.cursor_position_handler] ∧
    add_handler [HandlerId.cursor_position_handler] =
      [HandlerId.cursor_position_handler] ∧
    HandlerId.cursor_position_handler ∉ ([] : List HandlerId) ∧
    remove_handler [] = [] :=
  ⟨by decide,
    register_unregister_guard_spec.1 [HandlerId.cursor_position_handler]
      (by decide),
    by decide,
    register_unregister_guard_spec.2.1 [] (by decide)⟩

end CursorTracker
